import Mathlib

/-!
Shallow embedding of the invoice-management server (`src/index.js`).

The server keeps three Mongo collections (`Vendor`, `Invoice`, `ActivityLog`)
and reacts to Stripe webhook events in `app.post('/stripe-webhook')`.
External collaborators (the Stripe SDK, bcrypt, jwt, Mongo id generation,
the system clock) are modelled as explicit inputs to each operation;
collections are lists of records and `findOneAndUpdate` is an explicit
first-match update.  Monetary amounts are integers, timestamps are
naturals.
-/

namespace InvoiceServer

/-- `Vendor` document (`VendorSchema`, src/index.js lines 22-33).  `localId`
models the Mongo `_id` the driver assigns to the document. -/
structure Vendor where
  localId : String
  username : String
  password : String
  approved : Bool
  customers : List String
  stripeCustomerId : String
  subscriptionStatus : String
  trialEndsAt : Nat
  stripeConnectAccountId : Option String
deriving Repr, DecidableEq

/-- `Invoice` document (`InvoiceSchema`, lines 36-46).  `id` is the Stripe
invoice id (the correlation key); `localId` models the Mongo `_id`. -/
structure InvoiceRec where
  localId : String
  id : String
  customerId : String
  amount : Int
  description : String
  invoiceUrl : String
  status : String
  createdAt : Nat
deriving Repr, DecidableEq

/-- `ActivityLog` document (`ActivityLogSchema`, lines 49-56). -/
structure LogEntry where
  eventType : String
  description : String
  timestamp : Nat
  relatedId : Option String
deriving Repr, DecidableEq

/-- The local store: the three Mongo collections. -/
structure DB where
  vendors : List Vendor
  invoices : List InvoiceRec
  activityLog : List LogEntry
deriving Repr, DecidableEq

/-- `Model.findOneAndUpdate(filter, update, {new: true})`: update the first
record satisfying `p` by `f`; return the updated record (if any) and the
new collection. -/
def updateFirst (p : α → Bool) (f : α → α) : List α → Option α × List α
  | [] => (none, [])
  | x :: xs =>
    if p x then (some (f x), f x :: xs)
    else
      let r := updateFirst p f xs
      (r.1, x :: r.2)

/-- Number of ledger entries of a given event type. -/
def countType (t : String) (l : List LogEntry) : Nat :=
  (l.filter (fun e => e.eventType == t)).length

/-- A verified Stripe event, as produced by
`stripe.webhooks.constructEvent`: the event types the switch at lines
538-649 distinguishes, carrying the payload fields each handler reads. -/
inductive StripeEvent where
  | chargeDisputeCreated (charge : String)
  | customerSubscriptionUpdated (customer : String) (status : String)
  | invoicePaymentSucceeded (invoiceId : String)
  | payoutSucceeded (payoutId : String) (amount : Int) (currency : String)
  | payoutFailed (payoutId : String) (failureCode : Option String)
  | chargeRefunded (chargeId : String) (amountRefunded : Int) (currency : String)
  | unhandled (eventType : String)
deriving Repr, DecidableEq

/-- A webhook event: Stripe's unique event identifier plus the payload. -/
structure Event where
  id : String
  data : StripeEvent
deriving Repr, DecidableEq

/-- What one handled event produces: the new store, the charges for which
`stripe.refunds.create` was called, and `console.log` output. -/
structure HandlerEffect where
  db : DB
  refunds : List String
  console : List String
deriving Repr, DecidableEq

/-- The event switch bodies (src/index.js lines 538-649), per event type.
`refund c` is the outcome of `stripe.refunds.create({charge: c})`; `now`
is the clock supplying the `timestamp` default of `ActivityLog.create`. -/
def handleEvent (refund : String → Except String Unit) (ev : StripeEvent)
    (db : DB) (now : Nat) : HandlerEffect :=
  match ev with
  | .chargeDisputeCreated charge =>
    match refund charge with
    | .ok _ =>
      { db := { db with activityLog := db.activityLog ++
          [{ eventType := "fraud_warning_refund"
           , description := "Fraud warning: Dispute created for charge " ++ charge ++ ". Auto-refund initiated."
           , timestamp := now
           , relatedId := some charge }] }
      , refunds := [charge]
      , console :=
          [ "Fraud warning: Dispute created for charge " ++ charge ++ "."
          , "Auto-refund initiated for charge " ++ charge ++ "."
          , "ADMIN NOTIFICATION: Fraud warning for charge " ++ charge ++ ". Auto-refund initiated." ] }
    | .error msg =>
      { db := { db with activityLog := db.activityLog ++
          [{ eventType := "fraud_warning_refund_failed"
           , description := "Fraud warning: Dispute created for charge " ++ charge ++ ". Auto-refund FAILED. Error: " ++ msg
           , timestamp := now
           , relatedId := some charge }] }
      , refunds := [charge]
      , console :=
          [ "Fraud warning: Dispute created for charge " ++ charge ++ "."
          , "Error initiating auto-refund for charge " ++ charge ++ ": " ++ msg
          , "ADMIN NOTIFICATION: Fraud warning for charge " ++ charge ++ ". Auto-refund FAILED." ] }
  | .customerSubscriptionUpdated stripeCustomerId newStatus =>
    let r := updateFirst (fun v => v.stripeCustomerId == stripeCustomerId)
      (fun v => { v with subscriptionStatus := newStatus }) db.vendors
    match r.1 with
    | some vendor =>
      { db := { db with vendors := r.2, activityLog := db.activityLog ++
          [{ eventType := "subscription_status_updated"
           , description := "Vendor " ++ vendor.username ++ " subscription status updated to " ++ newStatus ++ "."
           , timestamp := now
           , relatedId := some vendor.localId }] }
      , refunds := []
      , console :=
          [ "Subscription updated for customer " ++ stripeCustomerId ++ ". New status: " ++ newStatus
          , "Vendor " ++ vendor.username ++ " subscription status updated to " ++ newStatus ++ "." ] }
    | none =>
      { db := { db with vendors := r.2 }
      , refunds := []
      , console :=
          [ "Subscription updated for customer " ++ stripeCustomerId ++ ". New status: " ++ newStatus
          , "Vendor not found for Stripe Customer ID: " ++ stripeCustomerId ++ "." ] }
  | .invoicePaymentSucceeded invoiceId =>
    let r := updateFirst (fun i => i.id == invoiceId)
      (fun i => { i with status := "paid" }) db.invoices
    match r.1 with
    | some updatedInvoice =>
      { db := { db with invoices := r.2, activityLog := db.activityLog ++
          [{ eventType := "invoice_paid"
           , description := "Invoice " ++ updatedInvoice.id ++ " paid successfully."
           , timestamp := now
           , relatedId := some updatedInvoice.localId }] }
      , refunds := []
      , console :=
          [ "Invoice payment succeeded for invoice ID: " ++ invoiceId
          , "Invoice " ++ updatedInvoice.id ++ " status updated to paid." ] }
    | none =>
      { db := { db with invoices := r.2 }
      , refunds := []
      , console :=
          [ "Invoice payment succeeded for invoice ID: " ++ invoiceId
          , "Invoice not found for ID: " ++ invoiceId ++ "." ] }
  | .payoutSucceeded payoutId amount currency =>
    { db := { db with activityLog := db.activityLog ++
        [{ eventType := "payout_succeeded"
         , description := "Payout succeeded for ID: " ++ payoutId ++ ". Amount: " ++ toString (amount / 100) ++ " " ++ currency.toUpper ++ "."
         , timestamp := now
         , relatedId := some payoutId }] }
    , refunds := []
    , console := [ "Payout succeeded for ID: " ++ payoutId ++ "." ] }
  | .payoutFailed payoutId failureCode =>
    { db := { db with activityLog := db.activityLog ++
        [{ eventType := "payout_failed"
         , description := "Payout failed for ID: " ++ payoutId ++ ". Reason: " ++ failureCode.getD "N/A" ++ "."
         , timestamp := now
         , relatedId := some payoutId }] }
    , refunds := []
    , console := [ "Payout failed for ID: " ++ payoutId ++ ". Reason: " ++ failureCode.getD "N/A" ++ "." ] }
  | .chargeRefunded chargeId amountRefunded currency =>
    { db := { db with activityLog := db.activityLog ++
        [{ eventType := "charge_refunded"
         , description := "Charge refunded for ID: " ++ chargeId ++ ". Amount: " ++ toString (amountRefunded / 100) ++ " " ++ currency.toUpper ++ "."
         , timestamp := now
         , relatedId := some chargeId }] }
    , refunds := []
    , console := [ "Charge refunded for ID: " ++ chargeId ++ "." ] }
  | .unhandled eventType =>
    { db := db
    , refunds := []
    , console := [ "Unhandled event type " ++ eventType ] }

/-- The full webhook response. -/
structure WebhookResult where
  status : Nat
  ack : Bool
  db : DB
  refunds : List String
  console : List String
deriving Repr, DecidableEq

/-- `app.post('/stripe-webhook')` (lines 526-653).  `verified` is the
outcome of `stripe.webhooks.constructEvent`: an error makes the endpoint
return 400 before touching any state; otherwise the switch runs and the
endpoint replies 200 `{received: true}`. -/
def stripeWebhook (refund : String → Except String Unit)
    (verified : Except String Event) (db : DB) (now : Nat) : WebhookResult :=
  match verified with
  | .error msg =>
    { status := 400, ack := false, db := db, refunds := []
    , console := ["Webhook Error: " ++ msg] }
  | .ok event =>
    let eff := handleEvent refund event.data db now
    { status := 200, ack := true, db := eff.db, refunds := eff.refunds
    , console := eff.console }

/-- An HTTP-ish response: status code and message body. -/
structure Response where
  status : Nat
  message : String
deriving Repr, DecidableEq

/-- Result of a forward (CRUD) operation: the response and the new store. -/
structure OpResult where
  response : Response
  db : DB
deriving Repr, DecidableEq

/-- External collaborators of `app.post('/register')` (lines 89-139):
the Stripe customer created for the vendor, the bcrypt hash of the
password, and the Mongo `_id` of the new document. -/
structure RegisterEnv where
  stripeCustomerId : String
  hashedPassword : String
  newLocalId : String
deriving Repr, DecidableEq

/-- `app.post('/register')` (lines 89-139). -/
def register (env : RegisterEnv) (username password : String) (db : DB)
    (now : Nat) : OpResult :=
  if username = "" ∨ password = "" then
    { response := ⟨400, "Username and password are required."⟩, db := db }
  else
    match db.vendors.find? (fun v => v.username == username) with
    | some _ =>
      { response := ⟨409, "Vendor with this username already exists."⟩, db := db }
    | none =>
      let newVendor : Vendor :=
        { localId := env.newLocalId
        , username := username
        , password := env.hashedPassword
        , approved := false
        , customers := []
        , stripeCustomerId := env.stripeCustomerId
        , subscriptionStatus := "trialing"
        , trialEndsAt := now + 30 * 24 * 60 * 60 * 1000
        , stripeConnectAccountId := none }
      { response := ⟨201, "Vendor registered successfully. Awaiting admin approval."⟩
      , db := { db with vendors := db.vendors ++ [newVendor], activityLog := db.activityLog ++
                  [{ eventType := "vendor_registered"
                   , description := "New vendor registered: " ++ username
                   , timestamp := now
                   , relatedId := some env.newLocalId }] } }

/-- `app.post('/login')` (lines 141-177).  `compare` is `bcrypt.compare`
applied to the submitted password and the stored hash; the issued JWT
cookie is not part of the observable response modelled here. -/
def login (compare : String → String → Bool) (username password : String)
    (db : DB) : Response :=
  if username = "" ∨ password = "" then
    ⟨400, "Username and password are required."⟩
  else
    match db.vendors.find? (fun v => v.username == username) with
    | none => ⟨401, "Invalid credentials."⟩
    | some vendor =>
      if ¬ compare password vendor.password then
        ⟨401, "Invalid credentials."⟩
      else if ¬ vendor.approved then
        ⟨403, "Your account is awaiting admin approval."⟩
      else
        ⟨200, "Login successful!"⟩

/-- `app.post('/admin/vendors/approve')` (lines 209-229). -/
def approveVendor (username : String) (db : DB) (now : Nat) : OpResult :=
  let r := updateFirst (fun v => v.username == username)
    (fun v => { v with approved := true }) db.vendors
  match r.1 with
  | some vendor =>
    { response := ⟨200, "Vendor " ++ username ++ " approved successfully."⟩
    , db := { db with vendors := r.2, activityLog := db.activityLog ++
        [{ eventType := "vendor_approved"
         , description := "Vendor approved: " ++ username
         , timestamp := now
         , relatedId := some vendor.localId }] } }
  | none =>
    { response := ⟨404, "Vendor not found."⟩, db := { db with vendors := r.2 } }

/-- `app.post('/create-customer')` (lines 232-254): the Stripe customer
creation is external; locally only an audit entry is appended. -/
def createCustomer (stripeCustomerIdCreated : String) (email name_ : String)
    (db : DB) (now : Nat) : OpResult :=
  { response := ⟨201, "Stripe customer created successfully."⟩
  , db := { db with activityLog := db.activityLog ++
      [{ eventType := "customer_added"
       , description := "New customer added: " ++ name_ ++ " (" ++ email ++ ")"
       , timestamp := now
       , relatedId := some stripeCustomerIdCreated }] } }

/-- `app.post('/vendor/add-customer')` (lines 273-294). -/
def addCustomer (vendorUsername customerId : String) (db : DB) : OpResult :=
  match db.vendors.find? (fun v => v.username == vendorUsername) with
  | none => { response := ⟨404, "Vendor not found."⟩, db := db }
  | some vendor =>
    if vendor.customers.contains customerId then
      { response := ⟨409, "Customer already associated with this vendor."⟩, db := db }
    else
      let r := updateFirst (fun v => v.username == vendorUsername)
        (fun v => { v with customers := v.customers ++ [customerId] }) db.vendors
      { response := ⟨200, "Customer associated with vendor successfully."⟩
      , db := { db with vendors := r.2 } }

/-- External collaborators of `app.post('/create-invoice')` (lines
377-438): whether `customer.invoice_settings.default_payment_method` is
set, the invoice returned by `stripe.invoices.create`, the invoice
returned by `stripe.invoices.finalizeInvoice` (whose `status` reports
whether the auto-charge actually went through), and the Mongo `_id` for
the local record. -/
structure CreateInvoiceEnv where
  hasDefaultPaymentMethod : Bool
  createdId : String
  createdUrl : String
  finalizedId : String
  finalizedUrl : String
  finalizedStatus : String
  newLocalId : String
deriving Repr, DecidableEq

/-- `app.post('/create-invoice')` (lines 377-438).  With a default payment
method the code finalizes the remote invoice and then saves the local
record with status `'paid'` unconditionally — `env.finalizedStatus` is
never consulted; otherwise it saves the record with status `'open'`. -/
def createInvoice (env : CreateInvoiceEnv) (customerId : String) (amount : Int)
    (description : String) (db : DB) (now : Nat) : OpResult :=
  if env.hasDefaultPaymentMethod then
    let newInvoicePaid : InvoiceRec :=
      { localId := env.newLocalId
      , id := env.finalizedId
      , customerId := customerId
      , amount := amount
      , description := description
      , invoiceUrl := env.finalizedUrl
      , status := "paid"
      , createdAt := now }
    { response := ⟨200, "Invoice created and charged automatically!"⟩
    , db := { db with invoices := db.invoices ++ [newInvoicePaid], activityLog := db.activityLog ++
                [{ eventType := "invoice_created_and_paid"
                 , description := "Invoice created and automatically paid for customer " ++ customerId ++ ". Amount: " ++ toString amount
                 , timestamp := now
                 , relatedId := some env.finalizedId }] } }
  else
    let newInvoiceOpen : InvoiceRec :=
      { localId := env.newLocalId
      , id := env.createdId
      , customerId := customerId
      , amount := amount
      , description := description
      , invoiceUrl := env.createdUrl
      , status := "open"
      , createdAt := now }
    { response := ⟨200, "Invoice created successfully (manual send required)!"⟩
    , db := { db with invoices := db.invoices ++ [newInvoiceOpen], activityLog := db.activityLog ++
                [{ eventType := "invoice_created"
                 , description := "Invoice created for customer " ++ customerId ++ ". Amount: " ++ toString amount ++ ". Manual send required."
                 , timestamp := now
                 , relatedId := some env.createdId }] } }

/-- `app.post('/vendor/create-subscription')` (lines 441-487):
`subscriptionStatus` is the status of the subscription Stripe created. -/
def createSubscription (subscriptionStatus : String) (vendorUsername : String)
    (db : DB) (now : Nat) : OpResult :=
  match db.vendors.find? (fun v => v.username == vendorUsername) with
  | none => { response := ⟨404, "Vendor not found."⟩, db := db }
  | some vendor =>
    let r := updateFirst (fun v => v.username == vendorUsername)
      (fun v => { v with subscriptionStatus := subscriptionStatus }) db.vendors
    { response := ⟨200, "Subscription successful!"⟩
    , db := { db with vendors := r.2, activityLog := db.activityLog ++
        [{ eventType := "vendor_subscribed"
         , description := "Vendor " ++ vendorUsername ++ " subscribed to plan. Status: " ++ subscriptionStatus
         , timestamp := now
         , relatedId := some vendor.localId }] } }

/-- `app.post('/vendor/request-payout')` (lines 490-523): `payoutId` is
the id of the payout Stripe created. -/
def requestPayout (payoutId : String) (vendorUsername : String) (amount : Int)
    (db : DB) (now : Nat) : OpResult :=
  match db.vendors.find? (fun v => v.username == vendorUsername) with
  | none => { response := ⟨404, "Vendor not found."⟩, db := db }
  | some vendor =>
    match vendor.stripeConnectAccountId with
    | none =>
      { response := ⟨400, "Stripe Express account not connected for this vendor."⟩, db := db }
    | some _ =>
      { response := ⟨200, "Payout of " ++ toString amount ++ " requested successfully for " ++ vendor.username ++ ". Payout ID: " ++ payoutId⟩
      , db := { db with activityLog := db.activityLog ++
          [{ eventType := "payout_requested"
           , description := "Payout of " ++ toString amount ++ " requested by " ++ vendor.username ++ ". Payout ID: " ++ payoutId
           , timestamp := now
           , relatedId := some payoutId }] } }

/-- `app.post('/vendor/cancel-subscription')` (lines 950-991):
`activeSubscription` is whether `stripe.subscriptions.list` found an
active subscription; `canceledStatus` the status Stripe reports after
`stripe.subscriptions.cancel`. -/
def cancelSubscription (activeSubscription : Bool) (canceledStatus : String)
    (username : String) (db : DB) (now : Nat) : OpResult :=
  match db.vendors.find? (fun v => v.username == username) with
  | none => { response := ⟨404, "Vendor not found."⟩, db := db }
  | some vendor =>
    if ¬ activeSubscription then
      { response := ⟨400, "No active subscription found for this vendor."⟩, db := db }
    else
      let r := updateFirst (fun v => v.username == username)
        (fun v => { v with subscriptionStatus := canceledStatus }) db.vendors
      { response := ⟨200, "Subscription canceled successfully."⟩
      , db := { db with vendors := r.2, activityLog := db.activityLog ++
          [{ eventType := "subscription_canceled"
           , description := "Vendor " ++ username ++ " canceled subscription. Status: " ++ canceledStatus
           , timestamp := now
           , relatedId := some vendor.localId }] } }

/-- Insert a log entry into a list kept in descending `timestamp` order. -/
def insertDesc (e : LogEntry) : List LogEntry → List LogEntry
  | [] => [e]
  | x :: xs => if x.timestamp ≤ e.timestamp then e :: x :: xs else x :: insertDesc e xs

/-- Sort log entries by `timestamp` descending, modelling Mongo's
`.sort({timestamp: -1})`. -/
def sortDesc : List LogEntry → List LogEntry
  | [] => []
  | x :: xs => insertDesc x (sortDesc xs)

/-- `app.get('/admin/activity-log')` (lines 724-747).  `searchMatches`
models the case-insensitive `$regex` match on `description` (the regex
engine is external); `eventTypeFilter` the exact `eventType` filter.
Returns the entries, newest first; the store is not touched. -/
def activityLogQuery (role : String) (searchMatches : Option (String → Bool))
    (eventTypeFilter : Option String) (db : DB) : Option (List LogEntry) :=
  if role ≠ "admin" then none
  else
    let afterSearch :=
      match searchMatches with
      | some p => db.activityLog.filter (fun e => p e.description)
      | none => db.activityLog
    let afterType :=
      match eventTypeFilter with
      | some t => afterSearch.filter (fun e => e.eventType == t)
      | none => afterSearch
    some (sortDesc afterType)

/-- Every operation of the embedded system that can touch the store,
with its external inputs. -/
inductive Op where
  | opRegister (env : RegisterEnv) (username password : String) (now : Nat)
  | opLogin (compare : String → String → Bool) (username password : String)
  | opApproveVendor (username : String) (now : Nat)
  | opCreateCustomer (stripeCustomerIdCreated email name_ : String) (now : Nat)
  | opAddCustomer (vendorUsername customerId : String)
  | opCreateInvoice (env : CreateInvoiceEnv) (customerId : String) (amount : Int)
      (description : String) (now : Nat)
  | opCreateSubscription (subscriptionStatus vendorUsername : String) (now : Nat)
  | opRequestPayout (payoutId vendorUsername : String) (amount : Int) (now : Nat)
  | opCancelSubscription (activeSubscription : Bool) (canceledStatus username : String) (now : Nat)
  | opWebhook (refund : String → Except String Unit) (verified : Except String Event) (now : Nat)
  | opActivityLogQuery (role : String) (searchMatches : Option (String → Bool))
      (eventTypeFilter : Option String)

/-- The store after running one operation. -/
def Op.step (db : DB) : Op → DB
  | .opRegister env u p now => (register env u p db now).db
  | .opLogin _ _ _ => db
  | .opApproveVendor u now => (approveVendor u db now).db
  | .opCreateCustomer c e n now => (createCustomer c e n db now).db
  | .opAddCustomer v c => (addCustomer v c db).db
  | .opCreateInvoice env c a d now => (createInvoice env c a d db now).db
  | .opCreateSubscription s v now => (createSubscription s v db now).db
  | .opRequestPayout p v a now => (requestPayout p v a db now).db
  | .opCancelSubscription act cs u now => (cancelSubscription act cs u db now).db
  | .opWebhook refund verified now => (stripeWebhook refund verified db now).db
  | .opActivityLogQuery _ _ _ => db

/-! ### The event switch as a clause list

To settle whether the stray `break;` at src/index.js line 618 causes any
fallthrough or makes any branch unreachable, the `switch (event.type)`
statement is also modelled at the level of its textual clause structure,
with JavaScript switch execution semantics: the first case label equal to
the scrutinee is selected (the `default` clause if none matches), and the
statement lists of the selected clause and of all following clauses run
in order until a `break` is executed. -/

/-- Which handler body a clause of the switch runs. -/
inductive HandlerTag where
  | dispute
  | subUpdated
  | invoicePaid
  | payoutOk
  | payoutFail
  | chargeRef
  | defaultCase
deriving Repr, DecidableEq

/-- A statement of a switch clause body: a handler body, or `break`. -/
inductive SwitchStmt where
  | run (t : HandlerTag)
  | brk
deriving Repr, DecidableEq

/-- A clause: its case label (`none` for `default`) and its body. -/
def SwitchClause := Option String × List SwitchStmt

/-- The clauses of `switch (event.type)` (lines 538-649), in source
order.  The stray `break;` of line 618 belongs to the statement list of
the `invoice.payment_succeeded` clause, after that clause's own
`break`. -/
def webhookClauses : List SwitchClause :=
  [ (some "charge.dispute.created", [.run .dispute, .brk])
  , (some "customer.subscription.updated", [.run .subUpdated, .brk])
  , (some "invoice.payment_succeeded", [.run .invoicePaid, .brk, .brk])
  , (some "payout.succeeded", [.run .payoutOk, .brk])
  , (some "payout.failed", [.run .payoutFail, .brk])
  , (some "charge.refunded", [.run .chargeRef, .brk])
  , (none, [.run .defaultCase]) ]

/-- Run one clause body: the handler bodies executed before the first
`break`, and whether a `break` was executed. -/
def runBody : List SwitchStmt → List HandlerTag × Bool
  | [] => ([], false)
  | .brk :: _ => ([], true)
  | .run t :: rest =>
    let r := runBody rest
    (t :: r.1, r.2)

/-- Run from a selected clause onward, falling through into following
clauses until a `break` is executed. -/
def runFrom : List SwitchClause → List HandlerTag
  | [] => []
  | (_, body) :: rest =>
    let r := runBody body
    if r.2 then r.1 else r.1 ++ runFrom rest

/-- Select the first clause whose case label equals the scrutinee,
returning it together with all following clauses. -/
def seekCase (t : String) : List SwitchClause → Option (List SwitchClause)
  | [] => none
  | (some l, body) :: rest =>
    if t = l then some ((some l, body) :: rest) else seekCase t rest
  | (none, _) :: rest => seekCase t rest

/-- Select the `default` clause together with all following clauses. -/
def seekDefault : List SwitchClause → Option (List SwitchClause)
  | [] => none
  | (none, body) :: rest => some ((none, body) :: rest)
  | (some _, _) :: rest => seekDefault rest

/-- JavaScript switch execution: jump to the matching case (or to
`default`), then run with fallthrough until a `break`. -/
def switchRun (t : String) (cs : List SwitchClause) : List HandlerTag :=
  match seekCase t cs with
  | some selected => runFrom selected
  | none =>
    match seekDefault cs with
    | some selected => runFrom selected
    | none => []

/-- The event-type-to-handler table of spec §4.4/§4.2: each event type
maps to exactly one handler. -/
def tagFor (t : String) : HandlerTag :=
  if t = "charge.dispute.created" then .dispute
  else if t = "customer.subscription.updated" then .subUpdated
  else if t = "invoice.payment_succeeded" then .invoicePaid
  else if t = "payout.succeeded" then .payoutOk
  else if t = "payout.failed" then .payoutFail
  else if t = "charge.refunded" then .chargeRef
  else .defaultCase

/-! ### Concrete fixtures used to evaluate the embedding -/

/-- A refund call that succeeds. -/
def okRefund : String → Except String Unit := fun _ => Except.ok ()

/-- A refund call that fails with a concrete Stripe error message. -/
def failRefund : String → Except String Unit := fun _ => Except.error "card_declined"

/-- An approved vendor whose Stripe customer id is `cus_A`. -/
def vA : Vendor :=
  ⟨"v_loc_1", "alice", "hashed_pw", true, ["cus_C1"], "cus_A", "trialing", 0, none⟩

/-- An open invoice with Stripe id `in_1` and Mongo id `loc_in_1`. -/
def invA : InvoiceRec :=
  ⟨"loc_in_1", "in_1", "cus_C1", 50, "web design", "urlA", "open", 0⟩

/-- A store holding `vA` and `invA` and an empty ledger. -/
def dbA : DB := ⟨[vA], [invA], []⟩

/-- The empty store. -/
def emptyDB : DB := ⟨[], [], []⟩

/-- A webhook delivery of `invoice.payment_succeeded` for `in_1`. -/
def evtPaidIn1 : Event := ⟨"evt_dup", .invoicePaymentSucceeded "in_1"⟩

/-- A webhook delivery of `charge.dispute.created` for `ch_1`. -/
def evtDisputeCh1 : Event := ⟨"evt_disp", .chargeDisputeCreated "ch_1"⟩

/-- A `/create-invoice` environment in which the customer has a default
payment method but the finalized remote invoice reports status `open`
(the auto-charge was not confirmed). -/
def envAutoCharge : CreateInvoiceEnv :=
  ⟨true, "in_9", "urlB", "in_9", "urlC", "open", "loc_in_9"⟩

/-! ### Helper lemmas -/

theorem updateFirst_fst (p : α → Bool) (f : α → α) :
    ∀ l : List α, (updateFirst p f l).1 = (l.find? p).map f := by
  intro l
  induction l with
  | nil => rfl
  | cons x xs ih =>
    by_cases h : p x
    · simp [updateFirst, h, List.find?_cons_of_pos _ h]
    · simp [updateFirst, h, List.find?_cons_of_neg _ h, ih]

theorem updateFirst_snd_of_none (p : α → Bool) (f : α → α) :
    ∀ l : List α, l.find? p = none → (updateFirst p f l).2 = l := by
  intro l
  induction l with
  | nil => intro _; rfl
  | cons x xs ih =>
    intro h
    rw [List.find?_eq_none] at h
    have hx : ¬ p x = true := h x (List.mem_cons_self x xs)
    have hxs : xs.find? p = none := by
      rw [List.find?_eq_none]
      intro y hy
      exact h y (List.mem_cons_of_mem x hy)
    simp [updateFirst, hx, ih hxs]

theorem find?_updateFirst (p : α → Bool) (f : α → α) :
    ∀ l : List α, ∀ v : α, l.find? p = some v → p (f v) = true →
      ((updateFirst p f l).2).find? p = some (f v) := by
  intro l
  induction l with
  | nil => intro v h; simp at h
  | cons x xs ih =>
    intro v h hf
    by_cases hx : p x
    · rw [List.find?_cons_of_pos _ hx] at h
      cases h
      simp [updateFirst, hx, List.find?_cons_of_pos _ hf]
    · rw [List.find?_cons_of_neg _ hx] at h
      simp [updateFirst, hx, List.find?_cons_of_neg _ hx, ih v h hf]

/-- The display order relation: timestamps weakly decreasing. -/
def logGE (a b : LogEntry) : Prop := b.timestamp ≤ a.timestamp

theorem mem_insertDesc (e : LogEntry) :
    ∀ l : List LogEntry, ∀ y : LogEntry, y ∈ insertDesc e l → y = e ∨ y ∈ l := by
  intro l
  induction l with
  | nil => intro y hy; simp [insertDesc] at hy; exact Or.inl hy
  | cons x xs ih =>
    intro y hy
    by_cases h : x.timestamp ≤ e.timestamp
    · simp [insertDesc, h] at hy
      rcases hy with h1 | h1 | h1
      · exact Or.inl h1
      · exact Or.inr (by simp [h1])
      · exact Or.inr (by simp [h1])
    · simp [insertDesc, h] at hy
      rcases hy with h1 | h1
      · exact Or.inr (by simp [h1])
      · rcases ih y h1 with h2 | h2
        · exact Or.inl h2
        · exact Or.inr (by simp [h2])

theorem pairwise_insertDesc (e : LogEntry) :
    ∀ l : List LogEntry, List.Pairwise logGE l →
      List.Pairwise logGE (insertDesc e l) := by
  intro l
  induction l with
  | nil => intro _; simp [insertDesc]
  | cons x xs ih =>
    intro h
    rcases List.pairwise_cons.mp h with ⟨hx, hxs⟩
    by_cases hle : x.timestamp ≤ e.timestamp
    · simp only [insertDesc, if_pos hle]
      refine List.pairwise_cons.mpr ⟨?_, h⟩
      intro y hy
      rcases List.mem_cons.mp hy with rfl | hy'
      · exact hle
      · exact le_trans (hx y hy') hle
    · simp only [insertDesc, if_neg hle]
      refine List.pairwise_cons.mpr ⟨?_, ih hxs⟩
      intro y hy
      rcases mem_insertDesc e xs y hy with rfl | hy'
      · exact le_of_not_le hle
      · exact hx y hy'

theorem pairwise_sortDesc : ∀ l : List LogEntry, List.Pairwise logGE (sortDesc l) := by
  intro l
  induction l with
  | nil => simp [sortDesc]
  | cons x xs ih => exact pairwise_insertDesc x (sortDesc xs) ih

/-! ### Claims -/

/-- Claim C1: the claim states that delivering the same webhook event (same
event identifier) twice never yields two mutation-type ledger entries and
never two refund attempts for the same dispute.  The code has no
idempotency guard, so redelivering the identical `invoice.payment_succeeded`
event writes a second `invoice_paid` ledger entry, and redelivering the
identical `charge.dispute.created` event calls `stripe.refunds.create` a
second time and writes a second `fraud_warning_refund` entry: this theorem
evaluates the embedded webhook at those failing inputs. -/
theorem C1_redelivery_duplicates_ledger_and_refunds :
    countType "invoice_paid"
      ((stripeWebhook okRefund (Except.ok evtPaidIn1)
        ((stripeWebhook okRefund (Except.ok evtPaidIn1) dbA 1).db) 2).db.activityLog) = 2 ∧
    ((stripeWebhook okRefund (Except.ok evtDisputeCh1) dbA 1).refunds ++
      (stripeWebhook okRefund (Except.ok evtDisputeCh1)
        ((stripeWebhook okRefund (Except.ok evtDisputeCh1) dbA 1).db) 2).refunds)
      = ["ch_1", "ch_1"] ∧
    countType "fraud_warning_refund"
      ((stripeWebhook okRefund (Except.ok evtDisputeCh1)
        ((stripeWebhook okRefund (Except.ok evtDisputeCh1) dbA 1).db) 2).db.activityLog) = 2 := by
  decide

/-- Claim C2: for every verified `charge.dispute.created` event, exactly one
refund attempt is made for the disputed charge, exactly one ledger entry is
written reflecting the outcome (`fraud_warning_refund` on success, or the
distinct `fraud_warning_refund_failed` carrying the failure reason), a
failed refund does not escalate, and the webhook still acknowledges with
200. -/
theorem C2_dispute_one_refund_one_audit_entry
    (refund : String → Except String Unit) (eid charge : String) (db : DB) (now : Nat) :
    (stripeWebhook refund (Except.ok ⟨eid, .chargeDisputeCreated charge⟩) db now).status = 200 ∧
    (stripeWebhook refund (Except.ok ⟨eid, .chargeDisputeCreated charge⟩) db now).ack = true ∧
    (stripeWebhook refund (Except.ok ⟨eid, .chargeDisputeCreated charge⟩) db now).refunds = [charge] ∧
    (stripeWebhook refund (Except.ok ⟨eid, .chargeDisputeCreated charge⟩) db now).db.vendors = db.vendors ∧
    (stripeWebhook refund (Except.ok ⟨eid, .chargeDisputeCreated charge⟩) db now).db.invoices = db.invoices ∧
    (∀ u, refund charge = Except.ok u →
      (stripeWebhook refund (Except.ok ⟨eid, .chargeDisputeCreated charge⟩) db now).db.activityLog
        = db.activityLog ++
          [⟨"fraud_warning_refund",
            "Fraud warning: Dispute created for charge " ++ charge ++ ". Auto-refund initiated.",
            now, some charge⟩]) ∧
    (∀ msg, refund charge = Except.error msg →
      (stripeWebhook refund (Except.ok ⟨eid, .chargeDisputeCreated charge⟩) db now).db.activityLog
        = db.activityLog ++
          [⟨"fraud_warning_refund_failed",
            "Fraud warning: Dispute created for charge " ++ charge ++ ". Auto-refund FAILED. Error: " ++ msg,
            now, some charge⟩]) := by
  cases h : refund charge with
  | ok u => simp [stripeWebhook, handleEvent, h]
  | error msg => simp [stripeWebhook, handleEvent, h]

/-- Witness for C2 at a concrete failing refund: the single audit entry
records the failure reason. -/
theorem C2_dispute_one_refund_one_audit_entry_witness :
    (stripeWebhook failRefund (Except.ok ⟨"evt_disp", .chargeDisputeCreated "ch_1"⟩) emptyDB 5).db.activityLog
      = emptyDB.activityLog ++
        [⟨"fraud_warning_refund_failed",
          "Fraud warning: Dispute created for charge " ++ "ch_1" ++ ". Auto-refund FAILED. Error: " ++ "card_declined",
          5, some "ch_1"⟩] :=
  (C2_dispute_one_refund_one_audit_entry failRefund "evt_disp" "ch_1" emptyDB 5).2.2.2.2.2.2
    "card_declined" rfl

/-- Claim C8: the claim states that the local Invoice record created by
`/create-invoice` has status `paid` exactly when the auto-charge succeeded
(default payment method present and finalization confirmed payment).  The
code decides `paid` solely on the presence of a default payment method and
never consults the finalized invoice's status: with a default payment
method and a finalized remote status of `open` (auto-charge not
confirmed), the local record is still written as `paid`.  This theorem
evaluates the embedded `/create-invoice` at that failing input. -/
theorem C8_paid_written_without_payment_confirmation :
    envAutoCharge.finalizedStatus = "open" ∧
    envAutoCharge.hasDefaultPaymentMethod = true ∧
    ((createInvoice envAutoCharge "cus_A" 50 "web" emptyDB 7).db.invoices.find?
      (fun i => i.id == "in_9")).map (fun i => i.status) = some "paid" ∧
    (createInvoice envAutoCharge "cus_A" 50 "web" emptyDB 7).response.status = 200 := by
  decide

/-- Claim C4: for every `customer.subscription.updated` event carrying
status `X` whose customer id matches an existing Vendor's
`stripeCustomerId`, that Vendor's `subscriptionStatus` becomes `X`,
exactly one `subscription_status_updated` ledger entry is written, and the
webhook acknowledges with 200. -/
theorem C4_subscription_update_reconciles_vendor
    (refund : String → Except String Unit) (eid cust newStatus : String)
    (db : DB) (now : Nat) (v : Vendor)
    (h : db.vendors.find? (fun w => w.stripeCustomerId == cust) = some v) :
    (stripeWebhook refund (Except.ok ⟨eid, .customerSubscriptionUpdated cust newStatus⟩) db now).status = 200 ∧
    (stripeWebhook refund (Except.ok ⟨eid, .customerSubscriptionUpdated cust newStatus⟩) db now).db.vendors.find?
        (fun w => w.stripeCustomerId == cust) = some { v with subscriptionStatus := newStatus } ∧
    { v with subscriptionStatus := newStatus } ∈
      (stripeWebhook refund (Except.ok ⟨eid, .customerSubscriptionUpdated cust newStatus⟩) db now).db.vendors ∧
    (stripeWebhook refund (Except.ok ⟨eid, .customerSubscriptionUpdated cust newStatus⟩) db now).db.activityLog
      = db.activityLog ++
        [⟨"subscription_status_updated",
          "Vendor " ++ v.username ++ " subscription status updated to " ++ newStatus ++ ".",
          now, some v.localId⟩] ∧
    (stripeWebhook refund (Except.ok ⟨eid, .customerSubscriptionUpdated cust newStatus⟩) db now).db.invoices
      = db.invoices := by
  have hp : (fun w : Vendor => w.stripeCustomerId == cust)
      { v with subscriptionStatus := newStatus } = true := by
    simpa using List.find?_some h
  have hfst : (updateFirst (fun w : Vendor => w.stripeCustomerId == cust)
      (fun w => { w with subscriptionStatus := newStatus }) db.vendors).1
      = some { v with subscriptionStatus := newStatus } := by
    rw [updateFirst_fst, h]; rfl
  refine ⟨rfl, ?_, ?_, ?_, ?_⟩ <;>
    simp only [stripeWebhook, handleEvent, hfst] <;>
    first
      | rfl
      | exact find?_updateFirst _ _ db.vendors v h hp
      | exact List.mem_of_find?_eq_some (find?_updateFirst _ _ db.vendors v h hp)

/-- Witness for C4: on the concrete store `dbA`, a subscription update for
`cus_A` with status `active` flips `vA`'s status and appends one ledger
entry. -/
theorem C4_subscription_update_reconciles_vendor_witness :
    { vA with subscriptionStatus := "active" } ∈
      (stripeWebhook okRefund (Except.ok ⟨"evt_s", .customerSubscriptionUpdated "cus_A" "active"⟩) dbA 9).db.vendors ∧
    (stripeWebhook okRefund (Except.ok ⟨"evt_s", .customerSubscriptionUpdated "cus_A" "active"⟩) dbA 9).db.activityLog
      = dbA.activityLog ++
        [⟨"subscription_status_updated",
          "Vendor " ++ vA.username ++ " subscription status updated to " ++ "active" ++ ".",
          9, some vA.localId⟩] :=
  ⟨(C4_subscription_update_reconciles_vendor okRefund "evt_s" "cus_A" "active" dbA 9 vA (by decide)).2.2.1,
   (C4_subscription_update_reconciles_vendor okRefund "evt_s" "cus_A" "active" dbA 9 vA (by decide)).2.2.2.1⟩

/-- Claim C5: for every `invoice.payment_succeeded` event whose invoice id
matches a stored Invoice, that Invoice's status becomes `paid`, and
exactly one `invoice_paid` ledger entry is written whose `relatedId` is
the invoice's local Mongo id (`_id`), not the processor invoice id. -/
theorem C5_invoice_paid_reconciliation
    (refund : String → Except String Unit) (eid invoiceId : String)
    (db : DB) (now : Nat) (inv : InvoiceRec)
    (h : db.invoices.find? (fun i => i.id == invoiceId) = some inv) :
    (stripeWebhook refund (Except.ok ⟨eid, .invoicePaymentSucceeded invoiceId⟩) db now).status = 200 ∧
    (stripeWebhook refund (Except.ok ⟨eid, .invoicePaymentSucceeded invoiceId⟩) db now).db.invoices.find?
        (fun i => i.id == invoiceId) = some { inv with status := "paid" } ∧
    { inv with status := "paid" } ∈
      (stripeWebhook refund (Except.ok ⟨eid, .invoicePaymentSucceeded invoiceId⟩) db now).db.invoices ∧
    (stripeWebhook refund (Except.ok ⟨eid, .invoicePaymentSucceeded invoiceId⟩) db now).db.activityLog
      = db.activityLog ++
        [⟨"invoice_paid",
          "Invoice " ++ inv.id ++ " paid successfully.",
          now, some inv.localId⟩] ∧
    (stripeWebhook refund (Except.ok ⟨eid, .invoicePaymentSucceeded invoiceId⟩) db now).db.vendors
      = db.vendors := by
  have hp : (fun i : InvoiceRec => i.id == invoiceId) { inv with status := "paid" } = true := by
    simpa using List.find?_some h
  have hfst : (updateFirst (fun i : InvoiceRec => i.id == invoiceId)
      (fun i => { i with status := "paid" }) db.invoices).1
      = some { inv with status := "paid" } := by
    rw [updateFirst_fst, h]; rfl
  refine ⟨rfl, ?_, ?_, ?_, ?_⟩ <;>
    simp only [stripeWebhook, handleEvent, hfst] <;>
    first
      | rfl
      | exact find?_updateFirst _ _ db.invoices inv h hp
      | exact List.mem_of_find?_eq_some (find?_updateFirst _ _ db.invoices inv h hp)

/-- Witness for C5: on the concrete store `dbA`, paying invoice `in_1`
marks it paid and writes one `invoice_paid` entry whose `relatedId` is the
Mongo id `loc_in_1`, not the Stripe id `in_1`. -/
theorem C5_invoice_paid_reconciliation_witness :
    { invA with status := "paid" } ∈
      (stripeWebhook okRefund (Except.ok ⟨"evt_p", .invoicePaymentSucceeded "in_1"⟩) dbA 4).db.invoices ∧
    (stripeWebhook okRefund (Except.ok ⟨"evt_p", .invoicePaymentSucceeded "in_1"⟩) dbA 4).db.activityLog
      = dbA.activityLog ++
        [⟨"invoice_paid", "Invoice " ++ invA.id ++ " paid successfully.", 4, some invA.localId⟩] :=
  ⟨(C5_invoice_paid_reconciliation okRefund "evt_p" "in_1" dbA 4 invA (by decide)).2.2.1,
   (C5_invoice_paid_reconciliation okRefund "evt_p" "in_1" dbA 4 invA (by decide)).2.2.2.1⟩

/-- Claim C6: the webhook responds 400 exactly when signature verification
(`stripe.webhooks.constructEvent`) fails, and then mutates nothing and
attempts no refund; on every verified event — unregistered types and
business-logic not-found cases included — it responds 200 with the
acknowledgment body. -/
theorem C6_webhook_400_iff_verification_fails
    (refund : String → Except String Unit) (verified : Except String Event)
    (db : DB) (now : Nat) :
    ((stripeWebhook refund verified db now).status = 400 ↔ ∃ msg, verified = Except.error msg) ∧
    (∀ msg, verified = Except.error msg →
      (stripeWebhook refund verified db now).db = db ∧
      (stripeWebhook refund verified db now).refunds = []) ∧
    (∀ ev, verified = Except.ok ev →
      (stripeWebhook refund verified db now).status = 200 ∧
      (stripeWebhook refund verified db now).ack = true) := by
  cases verified with
  | error msg =>
    refine ⟨⟨fun _ => ⟨msg, rfl⟩, fun _ => rfl⟩, fun _ _ => ⟨rfl, rfl⟩, fun ev hev => ?_⟩
    exact absurd hev (by simp)
  | ok event =>
    refine ⟨⟨fun hst => ?_, fun ⟨m, hm⟩ => by simp at hm⟩, fun m hm => by simp at hm,
      fun ev _ => ⟨rfl, rfl⟩⟩
    simp [stripeWebhook] at hst

/-- Witness for C6 at concrete inputs: a failed verification leaves the
store untouched with a 400, and an unregistered event type is acknowledged
with 200. -/
theorem C6_webhook_400_iff_verification_fails_witness :
    (stripeWebhook okRefund (Except.error "No signatures found") dbA 0).db = dbA ∧
    (stripeWebhook okRefund (Except.ok ⟨"evt_u", .unhandled "invoice.created"⟩) dbA 0).status = 200 :=
  ⟨((C6_webhook_400_iff_verification_fails okRefund (Except.error "No signatures found") dbA 0).2.1
      "No signatures found" rfl).1,
   ((C6_webhook_400_iff_verification_fails okRefund (Except.ok ⟨"evt_u", .unhandled "invoice.created"⟩) dbA 0).2.2
      ⟨"evt_u", .unhandled "invoice.created"⟩ rfl).1⟩

/-- Counterexample to claim C7: on the concrete store `dbA`, a
`customer.subscription.updated` event for the unknown customer
`cus_unknown` (and an `invoice.payment_succeeded` event for the unknown
invoice `in_unknown`) leaves the store — the Activity Ledger included —
completely unchanged, so no warning-level audit entry is written, contrary
to the claim; the code only emits a console line. -/
theorem C7_counterexample_no_audit_entry_on_lookup_miss :
    (stripeWebhook okRefund
      (Except.ok ⟨"evt_m", .customerSubscriptionUpdated "cus_unknown" "active"⟩) dbA 3).db = dbA ∧
    countType "subscription_status_updated"
      ((stripeWebhook okRefund
        (Except.ok ⟨"evt_m", .customerSubscriptionUpdated "cus_unknown" "active"⟩) dbA 3).db.activityLog) = 0 ∧
    (stripeWebhook okRefund
      (Except.ok ⟨"evt_m2", .invoicePaymentSucceeded "in_unknown"⟩) dbA 3).db = dbA ∧
    (stripeWebhook okRefund
      (Except.ok ⟨"evt_m", .customerSubscriptionUpdated "cus_unknown" "active"⟩) dbA 3).status = 200 := by
  decide

/-- Claim C7 as amended: for every reconciliation event (subscription
update or invoice payment) whose Vendor or Invoice lookup finds no
matching local record, the reconciler logs the miss to the console only —
no Activity Ledger entry is written — mutates no entity, and returns
success (200) to the processor. -/
theorem C7_lookup_miss_console_only_no_mutation
    (refund : String → Except String Unit) (eid cust newStatus invoiceId : String)
    (db : DB) (now : Nat)
    (hv : db.vendors.find? (fun w => w.stripeCustomerId == cust) = none)
    (hi : db.invoices.find? (fun i => i.id == invoiceId) = none) :
    ((stripeWebhook refund (Except.ok ⟨eid, .customerSubscriptionUpdated cust newStatus⟩) db now).db = db ∧
     (stripeWebhook refund (Except.ok ⟨eid, .customerSubscriptionUpdated cust newStatus⟩) db now).status = 200 ∧
     (stripeWebhook refund (Except.ok ⟨eid, .customerSubscriptionUpdated cust newStatus⟩) db now).console
       = [ "Subscription updated for customer " ++ cust ++ ". New status: " ++ newStatus
         , "Vendor not found for Stripe Customer ID: " ++ cust ++ "." ]) ∧
    ((stripeWebhook refund (Except.ok ⟨eid, .invoicePaymentSucceeded invoiceId⟩) db now).db = db ∧
     (stripeWebhook refund (Except.ok ⟨eid, .invoicePaymentSucceeded invoiceId⟩) db now).status = 200 ∧
     (stripeWebhook refund (Except.ok ⟨eid, .invoicePaymentSucceeded invoiceId⟩) db now).console
       = [ "Invoice payment succeeded for invoice ID: " ++ invoiceId
         , "Invoice not found for ID: " ++ invoiceId ++ "." ]) := by
  have hfv : (updateFirst (fun w : Vendor => w.stripeCustomerId == cust)
      (fun w => { w with subscriptionStatus := newStatus }) db.vendors).1 = none := by
    rw [updateFirst_fst, hv]; rfl
  have hsv : (updateFirst (fun w : Vendor => w.stripeCustomerId == cust)
      (fun w => { w with subscriptionStatus := newStatus }) db.vendors).2 = db.vendors :=
    updateFirst_snd_of_none _ _ _ hv
  have hfi : (updateFirst (fun i : InvoiceRec => i.id == invoiceId)
      (fun i => { i with status := "paid" }) db.invoices).1 = none := by
    rw [updateFirst_fst, hi]; rfl
  have hsi : (updateFirst (fun i : InvoiceRec => i.id == invoiceId)
      (fun i => { i with status := "paid" }) db.invoices).2 = db.invoices :=
    updateFirst_snd_of_none _ _ _ hi
  refine ⟨⟨?_, rfl, ?_⟩, ⟨?_, rfl, ?_⟩⟩ <;>
    simp only [stripeWebhook, handleEvent, hfv, hsv, hfi, hsi]

/-- Witness for C7 (amended) at the concrete store `dbA` with an unknown
customer id and an unknown invoice id. -/
theorem C7_lookup_miss_console_only_no_mutation_witness :
    (stripeWebhook okRefund
      (Except.ok ⟨"evt_m", .customerSubscriptionUpdated "cus_unknown" "active"⟩) dbA 3).db = dbA ∧
    (stripeWebhook okRefund
      (Except.ok ⟨"evt_m2", .invoicePaymentSucceeded "in_unknown"⟩) dbA 3).db = dbA :=
  ⟨(C7_lookup_miss_console_only_no_mutation okRefund "evt_m" "cus_unknown" "active" "in_unknown"
      dbA 3 (by decide) (by decide)).1.1,
   (C7_lookup_miss_console_only_no_mutation okRefund "evt_m2" "cus_unknown" "active" "in_unknown"
      dbA 3 (by decide) (by decide)).2.1⟩

/-- Claim C3: the webhook switch executes exactly one handler branch per
event type — despite the stray `break;` of src/index.js line 618, under
JavaScript switch semantics every scrutinee runs exactly the handler body
of its own clause (the default body for unregistered types), with no
fallthrough into another clause; and every handler branch is reachable by
some event type. -/
theorem C3_switch_one_handler_per_type_all_reachable :
    (∀ t : String, switchRun t webhookClauses = [tagFor t]) ∧
    (∀ tag : HandlerTag, ∃ t : String, switchRun t webhookClauses = [tag]) := by
  constructor
  · intro t
    by_cases h1 : t = "charge.dispute.created"
    · subst h1; decide
    by_cases h2 : t = "customer.subscription.updated"
    · subst h2; decide
    by_cases h3 : t = "invoice.payment_succeeded"
    · subst h3; decide
    by_cases h4 : t = "payout.succeeded"
    · subst h4; decide
    by_cases h5 : t = "payout.failed"
    · subst h5; decide
    by_cases h6 : t = "charge.refunded"
    · subst h6; decide
    simp [switchRun, seekCase, seekDefault, runFrom, runBody, webhookClauses, tagFor,
      h1, h2, h3, h4, h5, h6]
  · intro tag
    cases tag with
    | dispute => exact ⟨"charge.dispute.created", by decide⟩
    | subUpdated => exact ⟨"customer.subscription.updated", by decide⟩
    | invoicePaid => exact ⟨"invoice.payment_succeeded", by decide⟩
    | payoutOk => exact ⟨"payout.succeeded", by decide⟩
    | payoutFail => exact ⟨"payout.failed", by decide⟩
    | chargeRef => exact ⟨"charge.refunded", by decide⟩
    | defaultCase => exact ⟨"account.updated", by decide⟩

theorem handleEvent_log_extends (refund : String → Except String Unit)
    (ev : StripeEvent) (db : DB) (now : Nat) :
    ∃ tail, (handleEvent refund ev db now).db.activityLog = db.activityLog ++ tail := by
  cases ev with
  | chargeDisputeCreated c =>
    cases h : refund c <;> simp only [handleEvent, h] <;> exact ⟨_, rfl⟩
  | customerSubscriptionUpdated c s =>
    rcases hfst : (updateFirst (fun v => v.stripeCustomerId == c)
        (fun v => { v with subscriptionStatus := s }) db.vendors).1 with _ | v <;>
      simp only [handleEvent, hfst]
    · exact ⟨[], (List.append_nil _).symm⟩
    · exact ⟨_, rfl⟩
  | invoicePaymentSucceeded iid =>
    rcases hfst : (updateFirst (fun i => i.id == iid)
        (fun i => { i with status := "paid" }) db.invoices).1 with _ | i <;>
      simp only [handleEvent, hfst]
    · exact ⟨[], (List.append_nil _).symm⟩
    · exact ⟨_, rfl⟩
  | payoutSucceeded p a c => exact ⟨_, rfl⟩
  | payoutFailed p c => exact ⟨_, rfl⟩
  | chargeRefunded c a cur => exact ⟨_, rfl⟩
  | unhandled t => exact ⟨[], (List.append_nil _).symm⟩

/-- Claim C9: the Activity Ledger is append-only — every embedded
operation of the system leaves the existing ledger entries untouched and
at most appends new ones — and the admin display query returns the entries
ordered by timestamp descending. -/
theorem C9_ledger_append_only_and_display_sorted :
    (∀ (op : Op) (db : DB), ∃ tail, (Op.step db op).activityLog = db.activityLog ++ tail) ∧
    (∀ (role : String) (searchMatches : Option (String → Bool))
        (eventTypeFilter : Option String) (db : DB) (l : List LogEntry),
      activityLogQuery role searchMatches eventTypeFilter db = some l →
      List.Pairwise logGE l) := by
  constructor
  · intro op db
    cases op with
    | opRegister env u p now =>
      simp only [Op.step, register]
      split
      · exact ⟨[], (List.append_nil _).symm⟩
      split
      · exact ⟨[], (List.append_nil _).symm⟩
      · exact ⟨_, rfl⟩
    | opLogin compare u p => exact ⟨[], (List.append_nil _).symm⟩
    | opApproveVendor u now =>
      simp only [Op.step, approveVendor]
      split
      · exact ⟨_, rfl⟩
      · exact ⟨[], (List.append_nil _).symm⟩
    | opCreateCustomer c e n now =>
      exact ⟨_, rfl⟩
    | opAddCustomer v c =>
      simp only [Op.step, addCustomer]
      split
      · exact ⟨[], (List.append_nil _).symm⟩
      split
      · exact ⟨[], (List.append_nil _).symm⟩
      · exact ⟨[], (List.append_nil _).symm⟩
    | opCreateInvoice env c a d now =>
      simp only [Op.step, createInvoice]
      split
      · exact ⟨_, rfl⟩
      · exact ⟨_, rfl⟩
    | opCreateSubscription s v now =>
      simp only [Op.step, createSubscription]
      split
      · exact ⟨[], (List.append_nil _).symm⟩
      · exact ⟨_, rfl⟩
    | opRequestPayout p v a now =>
      simp only [Op.step, requestPayout]
      split
      · exact ⟨[], (List.append_nil _).symm⟩
      split
      · exact ⟨[], (List.append_nil _).symm⟩
      · exact ⟨_, rfl⟩
    | opCancelSubscription act cs u now =>
      simp only [Op.step, cancelSubscription]
      split
      · exact ⟨[], (List.append_nil _).symm⟩
      split
      · exact ⟨[], (List.append_nil _).symm⟩
      · exact ⟨_, rfl⟩
    | opWebhook refund verified now =>
      cases verified with
      | error msg => exact ⟨[], (List.append_nil _).symm⟩
      | ok event =>
        simpa only [Op.step, stripeWebhook] using
          handleEvent_log_extends refund event.data db now
    | opActivityLogQuery role sm et => exact ⟨[], (List.append_nil _).symm⟩
  · intro role searchMatches eventTypeFilter db l h
    by_cases hr : role = "admin"
    · simp only [activityLogQuery, hr, ne_eq, not_true_eq_false, if_false,
        Option.some.injEq] at h
      rw [← h]
      exact pairwise_sortDesc _
    · simp [activityLogQuery, hr] at h

/-- Witness for C9: the display query on a store whose ledger was written
in ascending timestamp order returns it newest-first. -/
theorem C9_ledger_append_only_and_display_sorted_witness :
    List.Pairwise logGE [⟨"b", "B", 5, none⟩, ⟨"a", "A", 1, none⟩] :=
  C9_ledger_append_only_and_display_sorted.2 "admin" none none
    ⟨[], [], [⟨"a", "A", 1, none⟩, ⟨"b", "B", 5, none⟩]⟩ _ (by decide)

/-- Claim C10: a login attempt that fails authentication produces the same
observable response — status 401 with body `Invalid credentials.` —
whether the username is unknown or the password is wrong, so the response
does not reveal which check failed. -/
theorem C10_login_failure_indistinguishable
    (compare : String → String → Bool) (u p : String) (db1 db2 : DB) (v : Vendor)
    (hu : u ≠ "") (hp : p ≠ "")
    (h1 : db1.vendors.find? (fun w => w.username == u) = none)
    (h2 : db2.vendors.find? (fun w => w.username == u) = some v)
    (h3 : compare p v.password = false) :
    login compare u p db1 = login compare u p db2 ∧
    login compare u p db1 = ⟨401, "Invalid credentials."⟩ := by
  simp [login, hu, hp, h1, h2, h3]

/-- Witness for C10: unknown username against the empty store versus wrong
password against `dbA` yield the identical 401 response. -/
theorem C10_login_failure_indistinguishable_witness :
    login (fun _ _ => false) "alice" "pw" emptyDB = login (fun _ _ => false) "alice" "pw" dbA ∧
    login (fun _ _ => false) "alice" "pw" emptyDB = ⟨401, "Invalid credentials."⟩ :=
  C10_login_failure_indistinguishable (fun _ _ => false) "alice" "pw" emptyDB dbA vA
    (by decide) (by decide) (by decide) (by decide) (by decide)

end InvoiceServer
